import Mathlib

/-!
Shallow embedding of the volatility-conditioned allocation backtester
(`src/data_scripts/vix-spy-average.py`).

Conventions of the embedding:
* Returns and volatility readings are modelled as rationals `ℚ` (the
  Python floats carry exact decimal literals in every scenario the
  claims exercise); metrics that involve fractional powers or square
  roots (`calculate_annual_return`, `calculate_monthly_volatility`) are
  modelled over `ℝ`.
* A pandas frame column is modelled as a `List` indexed by trading day.
  Under the alignment precondition (same dates, same order) the
  label-based pandas operations coincide with positional ones, so
  series are positional lists here.
* The first-day undefined value produced by `pct_change` is dropped by
  the callers before any statistic; the model therefore takes the
  already-defined daily-return series as input.
-/

/-- Per-day allocation state, mirroring the three columns
`SPY Allocation`, `SH Allocation`, `VIX Level` that `implement_strategy`
writes into the frame. -/
structure DayAlloc where
  spyAlloc : ℚ
  shAlloc : ℚ
  vixLevel : Nat
deriving DecidableEq

/-- One iteration of the `for i in range(37)` loop of
`implement_strategy`, restricted to a single day with volatility reading
`reading`: for `i == 36` the row is overwritten when `reading >= 36`,
otherwise exactly when `reading == i`; the written allocation is
`strategy[i]` and the hedge column is `1 - strategy[i]`. -/
def allocStep (strategy : List ℚ) (reading : ℚ) (acc : DayAlloc) (i : Nat) : DayAlloc :=
  if i = 36 then
    if 36 ≤ reading then ⟨strategy.getD i 1, 1 - strategy.getD i 1, i⟩ else acc
  else
    if reading = (i : ℚ) then ⟨strategy.getD i 1, 1 - strategy.getD i 1, i⟩ else acc

/-- The allocation a day ends up with after the whole loop, starting
from the defaults written at lines 120-123 of the source
(`SPY Allocation = 1.0`, `SH Allocation = 0.0`, `VIX Level = 0`). -/
def allocForDay (strategy : List ℚ) (reading : ℚ) : DayAlloc :=
  (List.range 37).foldl (allocStep strategy reading) ⟨1, 0, 0⟩

/-- One row of the frame returned by `implement_strategy`: daily SPY
return, the two allocation fractions, the applied VIX level and the
portfolio-return column computed at line 136 of the source. -/
structure PortfolioDayRecord where
  dailyReturn : ℚ
  spyAlloc : ℚ
  shAlloc : ℚ
  vixLevel : Nat
  portfolioReturn : ℚ
deriving DecidableEq

/-- The record `implement_strategy` produces for one day, given the
day's `(dailyReturn, vixReading)` pair.  The portfolio return is
`Daily Return * SPY Allocation - Daily Return * SH Allocation`, exactly
as at line 136. -/
def dayRecord (strategy : List ℚ) (p : ℚ × ℚ) : PortfolioDayRecord :=
  ⟨p.1, (allocForDay strategy p.2).spyAlloc, (allocForDay strategy p.2).shAlloc,
    (allocForDay strategy p.2).vixLevel,
    p.1 * (allocForDay strategy p.2).spyAlloc - p.1 * (allocForDay strategy p.2).shAlloc⟩

/-- `implement_strategy(spy_df, vix_df, strategy)` (source lines
117-138): each aligned day is processed independently.  The source
performs no length or date validation whatsoever; positionally the rows
processed are the zip of the two series. -/
def implement_strategy (dailyReturns vixReadings strategy : List ℚ) :
    List PortfolioDayRecord :=
  (dailyReturns.zip vixReadings).map (dayRecord strategy)

/-- `calculate_annual_return(returns)` (source lines 102-106):
`(1 + returns).prod() ** (1 / (len(returns) / 252)) - 1`. -/
noncomputable def calculate_annual_return (returns : List ℝ) : ℝ :=
  ((returns.map (fun r => 1 + r)).prod) ^ (1 / ((returns.length : ℝ) / 252)) - 1

/-- Sample standard deviation as computed by `pandas.Series.std()`
(ddof = 1). -/
noncomputable def sampleStd (l : List ℝ) : ℝ :=
  Real.sqrt ((l.map (fun x => (x - l.sum / (l.length : ℝ)) ^ 2)).sum
    / ((l.length : ℝ) - 1))

/-- `calculate_monthly_volatility(returns)` (source lines 108-111):
resample into calendar-month buckets, compound each bucket with
`(1 + x).prod() - 1`, take the standard deviation.  The month bucket of
each day is carried explicitly alongside the return (it is a function
of the frame's date index). -/
noncomputable def calculate_monthly_volatility (l : List (Nat × ℝ)) : ℝ :=
  sampleStd (((l.map Prod.fst).dedup).map (fun m =>
    ((l.filter (fun p => p.1 == m)).map (fun p => 1 + p.2)).prod - 1))

/-- `objective_function_annual_return(strategy, spy_df, vix_df)`
(source lines 140-143): simulate, then negate the annualized return of
the portfolio-return column. -/
noncomputable def objective_function_annual_return
    (strategy dailyReturns vixReadings : List ℚ) : ℝ :=
  - calculate_annual_return
      ((implement_strategy dailyReturns vixReadings strategy).map
        (fun rec => (rec.portfolioReturn : ℝ)))

/-- `objective_function_monthly_volatility(strategy, spy_df, vix_df)`
(source lines 145-148): simulate, then take the monthly volatility of
the portfolio-return column.  `months` lists each day's calendar-month
bucket, read off the frame's date index. -/
noncomputable def objective_function_monthly_volatility
    (strategy dailyReturns vixReadings : List ℚ) (months : List Nat) : ℝ :=
  calculate_monthly_volatility
    (months.zip ((implement_strategy dailyReturns vixReadings strategy).map
      (fun rec => (rec.portfolioReturn : ℝ))))

/-- Result of one optimization run, mirroring the fields of the solver
result that `main` consumes: the table `x`, the convergence flag
`success` and the diagnostic `message`. -/
structure OptimizationResult where
  x : List ℚ
  success : Bool
  message : String

/-- Clamp one allocation fraction to the box `[lo, hi]`. -/
def clampToBounds (lo hi v : ℚ) : ℚ := max lo (min hi v)

/-- Modelled from the spec: the numerical solver invoked by `main`
(`scipy.optimize.minimize`, method SLSQP) is an external library and is
not part of this repository's source.  Per the spec it is a "bounded
local minimizer": every table it returns respects the box bounds built
at line 282 of the source (`bounds = [(0.01, 0.99) ...]`).  The
solver's internal search is opaque, so it is modelled as an arbitrary
proposed table projected onto the feasible box, together with the
solver's convergence flag and diagnostic message. -/
def optimize (proposal : List ℚ) (lo hi : ℚ) (success : Bool)
    (message : String) : OptimizationResult :=
  ⟨proposal.map (clampToBounds lo hi), success, message⟩

/-- What `main` produces after the two optimization runs: either an
early return at one of the two failure checks (lines 289-291 and
298-300 of the source), or the completed run carrying both optimized
tables, from which all dependent output (printed tables, CSV files,
metrics, plots) is then derived. -/
inductive MainOutcome where
  | abortedAnnual (message : String)
  | abortedMonthly (message : String)
  | completed (tableAnnual tableMonthly : List ℚ)
deriving DecidableEq

/-- The control flow of `main` around the two solver calls: `if not
result_annual.success: ...; return`, then `if not
result_monthly_volatility.success: ...; return`, and only then is the
dependent output produced from the two optimized tables. -/
def mainFlow (result_annual result_monthly : OptimizationResult) : MainOutcome :=
  if result_annual.success = false then
    MainOutcome.abortedAnnual result_annual.message
  else if result_monthly.success = false then
    MainOutcome.abortedMonthly result_monthly.message
  else
    MainOutcome.completed result_annual.x result_monthly.x

/-- A 37-entry table with every allocation at 50%. -/
def halfTable : List ℚ := List.replicate 37 (1/2)

/-- The 37-entry table of the spec's scenario: `table[5] = 1.0`,
`table[36] = 0.2`, every other level fully invested. -/
def scenarioTable : List ℚ :=
  (List.range 37).map (fun i => if i = 36 then 1/5 else 1)

/-! ### Characterization of the per-day allocation loop -/

/-- A loop iteration whose condition does not fire leaves the row
unchanged. -/
lemma allocStep_skip (strategy : List ℚ) (v : ℚ) (acc : DayAlloc) (i : Nat)
    (h36 : i = 36 → ¬ 36 ≤ v) (hne : i ≠ 36 → v ≠ (i : ℚ)) :
    allocStep strategy v acc i = acc := by
  unfold allocStep
  rcases eq_or_ne i 36 with hi | hi
  · subst hi
    simp [h36 rfl]
  · simp [hi, hne hi]

/-- Folding the loop over a block of levels none of which fires leaves
the row unchanged. -/
lemma foldl_allocStep_skip (strategy : List ℚ) (v : ℚ) :
    ∀ (l : List Nat) (acc : DayAlloc),
      (∀ i ∈ l, (i = 36 → ¬ 36 ≤ v) ∧ (i ≠ 36 → v ≠ (i : ℚ))) →
      l.foldl (allocStep strategy v) acc = acc
  | [], _, _ => rfl
  | a :: l, acc, h => by
    rw [List.foldl_cons,
      allocStep_skip strategy v acc a (h a (List.mem_cons_self a l)).1
        (h a (List.mem_cons_self a l)).2]
    exact foldl_allocStep_skip strategy v l acc
      (fun i hi => h i (List.mem_cons_of_mem a hi))

/-- A day whose reading is below 36 and equal to no integer level keeps
the default row (fully invested, level label 0). -/
lemma allocForDay_default (strategy : List ℚ) (v : ℚ) (hv : v < 36)
    (hne : ∀ i : Nat, i < 36 → v ≠ (i : ℚ)) :
    allocForDay strategy v = ⟨1, 0, 0⟩ := by
  unfold allocForDay
  apply foldl_allocStep_skip
  intro i hi
  rw [List.mem_range] at hi
  exact ⟨fun _ => not_le.mpr hv, fun h36 => hne i (by omega)⟩

/-- A day whose reading is at least 36 gets the level-36 table entry. -/
lemma allocForDay_of_ge (strategy : List ℚ) (v : ℚ) (hv : 36 ≤ v) :
    allocForDay strategy v
      = ⟨strategy.getD 36 1, 1 - strategy.getD 36 1, 36⟩ := by
  unfold allocForDay
  rw [show (37 : Nat) = Nat.succ 36 from rfl, List.range_succ, List.foldl_append]
  rw [foldl_allocStep_skip strategy v (List.range 36) ⟨1, 0, 0⟩ ?_]
  · simp only [List.foldl_cons, List.foldl_nil]
    unfold allocStep
    simp [hv]
  · intro i hi
    rw [List.mem_range] at hi
    refine ⟨fun h => absurd h (by omega), fun _ hvi => ?_⟩
    rw [hvi] at hv
    have h36 : (36 : Nat) ≤ i := by exact_mod_cast hv
    omega

/-- A day whose reading equals the integer `j < 36` exactly gets the
level-`j` table entry. -/
lemma allocForDay_of_eq (strategy : List ℚ) (v : ℚ) (j : Nat) (hj : j < 36)
    (hv : v = (j : ℚ)) :
    allocForDay strategy v
      = ⟨strategy.getD j 1, 1 - strategy.getD j 1, j⟩ := by
  unfold allocForDay
  rw [(by omega : (37 : Nat) = (j + 1) + (36 - j)), List.range_add,
    List.foldl_append, show j + 1 = Nat.succ j from rfl, List.range_succ,
    List.foldl_append]
  rw [foldl_allocStep_skip strategy v (List.range j) ⟨1, 0, 0⟩ ?_]
  · simp only [List.foldl_cons, List.foldl_nil]
    have hstep : allocStep strategy v ⟨1, 0, 0⟩ j
        = ⟨strategy.getD j 1, 1 - strategy.getD j 1, j⟩ := by
      unfold allocStep
      have hj36 : j ≠ 36 := by omega
      simp [hj36, hv]
    rw [hstep]
    apply foldl_allocStep_skip
    intro i hi
    rw [List.mem_map] at hi
    obtain ⟨k, hk, rfl⟩ := hi
    rw [List.mem_range] at hk
    constructor
    · intro _ hle
      rw [hv] at hle
      have h36 : (36 : Nat) ≤ j := by exact_mod_cast hle
      omega
    · intro _ hvi
      rw [hv] at hvi
      have heq : j = Nat.succ j + k := by exact_mod_cast hvi
      omega
  · intro i hi
    rw [List.mem_range] at hi
    refine ⟨fun h => absurd h (by omega), fun _ hvi => ?_⟩
    rw [hv] at hvi
    have heq : j = i := by exact_mod_cast hvi
    omega

/-- One loop iteration preserves the complementarity of the two
allocation columns. -/
lemma allocStep_shAlloc (strategy : List ℚ) (v : ℚ) (acc : DayAlloc) (i : Nat)
    (hacc : acc.shAlloc = 1 - acc.spyAlloc) :
    (allocStep strategy v acc i).shAlloc
      = 1 - (allocStep strategy v acc i).spyAlloc := by
  unfold allocStep
  split
  · split
    · rfl
    · exact hacc
  · split
    · rfl
    · exact hacc

/-- The whole loop preserves the complementarity of the two allocation
columns. -/
lemma foldl_allocStep_shAlloc (strategy : List ℚ) (v : ℚ) :
    ∀ (l : List Nat) (acc : DayAlloc), acc.shAlloc = 1 - acc.spyAlloc →
      (l.foldl (allocStep strategy v) acc).shAlloc
        = 1 - (l.foldl (allocStep strategy v) acc).spyAlloc
  | [], _, hacc => hacc
  | a :: l, acc, hacc => by
    rw [List.foldl_cons]
    exact foldl_allocStep_shAlloc strategy v l _
      (allocStep_shAlloc strategy v acc a hacc)

/-- Every day's hedge allocation is one minus its risky allocation. -/
lemma allocForDay_shAlloc (strategy : List ℚ) (v : ℚ) :
    (allocForDay strategy v).shAlloc = 1 - (allocForDay strategy v).spyAlloc :=
  foldl_allocStep_shAlloc strategy v (List.range 37) ⟨1, 0, 0⟩ (by norm_num)

/-- A reading of 35.99 equals no integer level and is below 36, so it
keeps the default row whatever the table is. -/
lemma allocForDay_3599 (t : List ℚ) :
    allocForDay t (3599/100) = ⟨1, 0, 0⟩ := by
  apply allocForDay_default
  · norm_num
  · intro i _ h
    rw [div_eq_iff (by norm_num : (100 : ℚ) ≠ 0)] at h
    have h4 : (3599 : Nat) = i * 100 := by exact_mod_cast h
    omega

/-! ### Claims -/

/-- Claim C1 is refuted: on a day whose volatility reading is 35.99 the
source's exact-equality matching fires no level, so the day keeps the
default level label 0 — not level 35 as floor-and-clamp semantics would
give. -/
theorem claim1_counterexample :
    (implement_strategy [1/100] [3599/100] halfTable).map
      PortfolioDayRecord.vixLevel = [0] ∧
    (implement_strategy [1/100] [3599/100] halfTable).map
      PortfolioDayRecord.vixLevel ≠ [35] := by
  have hday := allocForDay_3599 halfTable
  constructor
  · simp [implement_strategy, dayRecord, hday]
  · simp [implement_strategy, dayRecord, hday]

/-- Claim C1 (amended): volatility level assignment follows
exact-match-or-36-plus semantics, not floor-and-clamp: on every day a
reading of 35.99 fires no level and keeps the default level label 0;
readings of 36.0 and 500.0 (and any reading at least 36) map to level
36; a reading of exactly 12.0 maps to level 12, not 11 or 13. -/
theorem claim1_level_assignment (r1 r2 r3 r4 : ℚ) (t : List ℚ) :
    (implement_strategy [r1, r2, r3, r4] [3599/100, 36, 500, 12] t).map
      PortfolioDayRecord.vixLevel = [0, 36, 36, 12] := by
  have h1 := allocForDay_3599 t
  have h36 := allocForDay_of_ge t 36 (by norm_num)
  have h500 := allocForDay_of_ge t 500 (by norm_num)
  have h12 := allocForDay_of_eq t 12 12 (by norm_num) (by norm_num)
  simp [implement_strategy, dayRecord, h1, h36, h500, h12]

/-- Claim C2: evaluating the code at the failing input.  The source's
`implement_strategy` contains no length or alignment validation at all:
given a 100-entry return series and a 99-entry volatility series it
still produces a fully-formed 99-record output, with no failure signal
of any kind. -/
theorem claim2_no_contract_check :
    (implement_strategy (List.replicate 100 (1/100)) (List.replicate 99 10)
      halfTable).length = 99 := by
  simp [implement_strategy]

/-- Claim C3: on every day the portfolio return equals
`riskyReturn * riskyAllocation - riskyReturn * hedgeAllocation` (both
terms use the risky asset's own return), and the spec's scenario —
returns `[0.01, -0.01, 0.02]` at volatility levels `[5, 40, 5]` with
`table[5] = 1.0` and `table[36] = 0.2` — yields per-day portfolio
returns exactly `[0.01, 0.006, 0.02]`. -/
theorem claim3_portfolio_return_formula (rs vs t : List ℚ) :
    (∀ rec ∈ implement_strategy rs vs t,
      rec.portfolioReturn
        = rec.dailyReturn * rec.spyAlloc - rec.dailyReturn * rec.shAlloc) ∧
    (implement_strategy [1/100, -1/100, 1/50] [5, 40, 5] scenarioTable).map
      PortfolioDayRecord.portfolioReturn = [1/100, 3/500, 1/50] := by
  constructor
  · intro rec hrec
    obtain ⟨p, hp, rfl⟩ := List.mem_map.mp hrec
    rfl
  · have h5 := allocForDay_of_eq scenarioTable 5 5 (by norm_num) (by norm_num)
    have h40 := allocForDay_of_ge scenarioTable 40 (by norm_num)
    have hg5 : scenarioTable.getD 5 1 = 1 := rfl
    have hg36 : scenarioTable.getD 36 1 = 1/5 := rfl
    rw [hg5] at h5
    rw [hg36] at h40
    simp [implement_strategy, dayRecord, h5, h40]
    norm_num

/-- Claim C3 witness: the per-day formula instantiated on a concrete
day. -/
theorem claim3_witness :
    (dayRecord halfTable (1, 40)).portfolioReturn
      = (dayRecord halfTable (1, 40)).dailyReturn
          * (dayRecord halfTable (1, 40)).spyAlloc
        - (dayRecord halfTable (1, 40)).dailyReturn
          * (dayRecord halfTable (1, 40)).shAlloc :=
  (claim3_portfolio_return_formula [1] [40] halfTable).1 _
    (List.mem_map_of_mem _ (by simp))

/-- Claim C4: for every well-formed input and every day of the output,
the hedge allocation equals exactly one minus the risky allocation —
including days that fall into the default (unmatched-reading) branch. -/
theorem claim4_sum_invariant (rs vs t : List ℚ) (ht : t.length = 37) :
    ∀ rec ∈ implement_strategy rs vs t, rec.shAlloc = 1 - rec.spyAlloc := by
  intro rec hrec
  obtain ⟨p, hp, rfl⟩ := List.mem_map.mp hrec
  exact allocForDay_shAlloc t p.2

/-- Claim C4 witness: the invariant on a concrete default-branch day
(reading 17.5 matches no level). -/
theorem claim4_witness :
    (dayRecord halfTable (1, 35/2)).shAlloc
      = 1 - (dayRecord halfTable (1, 35/2)).spyAlloc :=
  claim4_sum_invariant [1] [35/2] halfTable (by simp [halfTable])
    (dayRecord halfTable (1, 35/2)) (List.mem_map_of_mem _ (by simp))

/-- Claim C9: a day whose reading is strictly below 36 and equal to no
integer 0..35 gets the default allocation (risky 1.0, hedge 0.0) and
level label 0, regardless of the table's contents; a table entry for a
level `i ≤ 35` is applied exactly on days whose reading equals `i`. -/
theorem claim9_exact_match_semantics (rs vs t : List ℚ) (r v : ℚ)
    (hmem : (r, v) ∈ rs.zip vs) :
    (dayRecord t (r, v) ∈ implement_strategy rs vs t) ∧
    (v < 36 → (∀ i : Nat, i ≤ 35 → v ≠ (i : ℚ)) →
      dayRecord t (r, v) = ⟨r, 1, 0, 0, r * 1 - r * 0⟩) ∧
    (∀ i : Nat, i ≤ 35 → v = (i : ℚ) →
      dayRecord t (r, v)
        = ⟨r, t.getD i 1, 1 - t.getD i 1, i,
            r * t.getD i 1 - r * (1 - t.getD i 1)⟩) := by
  refine ⟨List.mem_map_of_mem _ hmem, ?_, ?_⟩
  · intro hv hne
    unfold dayRecord
    rw [allocForDay_default t v hv (fun i hi => hne i (by omega))]
  · intro i hi hv
    unfold dayRecord
    rw [allocForDay_of_eq t v i (by omega) hv]

/-- Claim C9 witness: a concrete non-integer reading below 36 (17.5)
keeps the default unhedged row. -/
theorem claim9_witness :
    (dayRecord halfTable (1, 35/2) ∈ implement_strategy [1] [35/2] halfTable) ∧
    dayRecord halfTable (1, 35/2) = ⟨1, 1, 0, 0, 1 * 1 - 1 * 0⟩ := by
  have h := claim9_exact_match_semantics [1] [35/2] halfTable 1 (35/2) (by simp)
  refine ⟨h.1, h.2.1 (by norm_num) ?_⟩
  intro i _ hv
  rw [div_eq_iff (by norm_num : (2 : ℚ) ≠ 0)] at hv
  have h2 : (35 : Nat) = i * 2 := by exact_mod_cast hv
  omega

/-- Claim C10: on every day the portfolio return equals
`dailyReturn * (2 * riskyAllocation - 1)`; in particular under the
default allocation (risky = 1.0) it equals the risky asset's daily
return exactly, and at risky allocation 1/2 it is exactly 0. -/
theorem claim10_return_reduces (rs vs t : List ℚ) :
    ∀ rec ∈ implement_strategy rs vs t,
      rec.portfolioReturn = rec.dailyReturn * (2 * rec.spyAlloc - 1) ∧
      (rec.spyAlloc = 1 → rec.portfolioReturn = rec.dailyReturn) ∧
      (rec.spyAlloc = 1/2 → rec.portfolioReturn = 0) := by
  intro rec hrec
  obtain ⟨p, hp, rfl⟩ := List.mem_map.mp hrec
  have hsh := allocForDay_shAlloc t p.2
  simp only [dayRecord]
  refine ⟨?_, ?_, ?_⟩
  · rw [hsh]; ring
  · intro h1
    rw [hsh, h1]; ring
  · intro h1
    rw [hsh, h1]; ring

/-- Claim C10 witness: a concrete day at risky allocation 1/2 has
portfolio return exactly 0. -/
theorem claim10_witness :
    (dayRecord halfTable (3, 5)).portfolioReturn = 0 := by
  have hspy : (dayRecord halfTable (3, 5)).spyAlloc = 1/2 := by
    show (allocForDay halfTable 5).spyAlloc = 1/2
    rw [allocForDay_of_eq halfTable 5 5 (by norm_num) (by norm_num)]
    rfl
  exact (claim10_return_reduces [3] [5] halfTable (dayRecord halfTable (3, 5))
    (List.mem_map_of_mem _ (by simp))).2.2 hspy

/-- Claim C8: the simulator and the two objective functions are
deterministic — two calls with identical allocation table and identical
aligned series produce identical record sequences and identical
objective values.  All three are pure functions of their arguments in
the source (the optimizer trials each re-simulate from a fresh copy of
the frame, and no other state is read). -/
theorem claim8_determinism (t1 t2 rs1 rs2 vs1 vs2 : List ℚ)
    (ms1 ms2 : List Nat) (ht : t1 = t2) (hr : rs1 = rs2) (hv : vs1 = vs2)
    (hm : ms1 = ms2) :
    implement_strategy rs1 vs1 t1 = implement_strategy rs2 vs2 t2 ∧
    objective_function_annual_return t1 rs1 vs1
      = objective_function_annual_return t2 rs2 vs2 ∧
    objective_function_monthly_volatility t1 rs1 vs1 ms1
      = objective_function_monthly_volatility t2 rs2 vs2 ms2 := by
  subst ht; subst hr; subst hv; subst hm
  exact ⟨rfl, rfl, rfl⟩

/-- Claim C8 witness: determinism instantiated on a concrete input. -/
theorem claim8_witness :
    implement_strategy [1/100] [5] halfTable
      = implement_strategy [1/100] [5] halfTable ∧
    objective_function_annual_return halfTable [1/100] [5]
      = objective_function_annual_return halfTable [1/100] [5] ∧
    objective_function_monthly_volatility halfTable [1/100] [5] [0]
      = objective_function_monthly_volatility halfTable [1/100] [5] [0] :=
  claim8_determinism halfTable halfTable [1/100] [1/100] [5] [5] [0] [0]
    rfl rfl rfl rfl

/-- Compounding a constant daily return r over 252 days and
annualizing: the exponent `1 / (252/252)` is 1, so the annualized
return is the full-year compound `(1+r)^252 - 1`. -/
lemma calculate_annual_return_replicate (r : ℝ) :
    calculate_annual_return (List.replicate 252 r) = (1 + r) ^ 252 - 1 := by
  unfold calculate_annual_return
  rw [List.map_replicate, List.prod_replicate, List.length_replicate]
  rw [show (1 : ℝ) / (((252 : Nat) : ℝ) / 252) = 1 by norm_num, Real.rpow_one]

/-- Claim C5 is refuted: with constant daily return r = 1 over exactly
252 days, `calculate_annual_return` yields `2 ^ 252 - 1`, not
`(1 + 1) ^ 1 - 1 = 1` as the claimed round-trip asserts. -/
theorem claim5_counterexample :
    calculate_annual_return (List.replicate 252 (1 : ℝ))
      ≠ (1 + 1) ^ (1 : ℕ) - 1 := by
  rw [calculate_annual_return_replicate]
  norm_num

/-- Claim C5 (amended): for every constant daily return r applied over
exactly 252 days, `calculate_annual_return` equals the one-year
compound `(1+r)^252 - 1`: the number of years is 1, so the annualizing
exponent `1 / numYears` is 1 and the compounded growth itself is
returned. -/
theorem claim5_annualized_round_trip (r : ℝ) :
    calculate_annual_return (List.replicate 252 r) = (1 + r) ^ 252 - 1 :=
  calculate_annual_return_replicate r

/-- Claim C6: every entry of the table of an `OptimizationResult`
produced by the bounded solver with the driver's bounds lies within
`[0.01, 0.99]`; pure 0% or 100% allocations never occur. -/
theorem claim6_optimizer_bounds (proposal : List ℚ) (success : Bool)
    (message : String) (a : ℚ)
    (ha : a ∈ (optimize proposal (1/100) (99/100) success message).x) :
    1/100 ≤ a ∧ a ≤ 99/100 := by
  simp only [optimize] at ha
  obtain ⟨v, hv, rfl⟩ := List.mem_map.mp ha
  unfold clampToBounds
  exact ⟨le_max_left _ _, max_le (by norm_num) (min_le_left _ _)⟩

/-- Claim C6 witness: a concrete out-of-box proposal entry is clamped
into the box. -/
theorem claim6_witness :
    ((99/100 : ℚ) ∈ (optimize [2] (1/100) (99/100) true ("done")).x) ∧
    (1/100 ≤ (99/100 : ℚ) ∧ (99/100 : ℚ) ≤ 99/100) := by
  have hmem : (99/100 : ℚ) ∈ (optimize [2] (1/100) (99/100) true ("done")).x := by
    simp only [optimize, List.map_cons, List.map_nil, clampToBounds]
    norm_num
  exact ⟨hmem, claim6_optimizer_bounds [2] true ("done") (99/100) hmem⟩

/-- Claim C7: on non-convergence the run's result is a structured value
(`success = false` carrying the solver's diagnostic message), and
`main` aborts that run at the corresponding check before producing any
dependent output — a completed outcome (optimized tables, CSV files,
metrics) is never reached from a non-converged result. -/
theorem claim7_abort_on_failure (ra rm : OptimizationResult) :
    (ra.success = false →
      mainFlow ra rm = MainOutcome.abortedAnnual ra.message ∧
      ∀ ta tm, mainFlow ra rm ≠ MainOutcome.completed ta tm) ∧
    (ra.success = true → rm.success = false →
      mainFlow ra rm = MainOutcome.abortedMonthly rm.message ∧
      ∀ ta tm, mainFlow ra rm ≠ MainOutcome.completed ta tm) := by
  unfold mainFlow
  constructor
  · intro h
    rw [if_pos h]
    exact ⟨rfl, fun ta tm => by simp⟩
  · intro h1 h2
    rw [if_neg (by simp [h1]), if_pos h2]
    exact ⟨rfl, fun ta tm => by simp⟩

/-- Claim C7 witness: a concrete non-converged annual run aborts with
the solver's message. -/
theorem claim7_witness :
    mainFlow ⟨[], false, "Iteration limit reached"⟩ ⟨[], true, "ok"⟩
      = MainOutcome.abortedAnnual ("Iteration limit reached") :=
  ((claim7_abort_on_failure ⟨[], false, "Iteration limit reached"⟩
    ⟨[], true, "ok"⟩).1 rfl).1
